import Mathlib

/-!
# Pintos system-call layer (`src/userprog/syscall.c`)

A shallow embedding of the system-call bridge: the address validator
`validate_pointer`, the operation handlers (`exit`, `exec`, `create`, `remove`,
`open`, `filesize`, `read`, `write`, `seek`, `tell`, `close`) and the
dispatcher `syscall_handler`.

* Addresses and machine words are natural numbers below `2 ^ 32`; a C `int`
  is an `Int` obtained with `toInt32`.
* The kernel is an explicit state (`Kernel`): the running thread, the table of
  thread records, the filesystem lock, user memory and the trace of every
  call made to a collaborator (filesystem, console, scheduler) together with
  lock operations and printed lines.
* The collaborators are not part of the file; their answers come from an
  `Env`, each answer being a function of the trace so far and of the
  arguments of the call.
* A C function that may end in `thread_exit` returns a `Ret`: either a value
  or `Ret.noreturn`.
-/

namespace Pintos

/-! ## Machine integers -/

/-- Reinterpretation of a 32-bit word as a C `int` (two's complement). -/
def toInt32 (a : Nat) : Int :=
  if a % 2 ^ 32 < 2 ^ 31 then ((a % 2 ^ 32 : Nat) : Int) else ((a % 2 ^ 32 : Nat) : Int) - 2 ^ 32

/-- Conversion of a C `int` to the 32-bit word that holds it. -/
def toWord (i : Int) : Nat := (i % 2 ^ 32).toNat

/-- Wrap-around of an `int` computation to the 32-bit range. -/
def wrapInt (i : Int) : Int := toInt32 (toWord i)

/-- Modelled from the spec: the user/kernel boundary of `threads/vaddr.h`, which is
not among the sources; the value is the one Pintos uses, `0xC0000000`. -/
def PHYS_BASE : Nat := 0xC0000000

/-! ## Address validator (`syscall.c`, lines 279-293) -/

/-- Validator of `validate_pointer` for an arbitrary boundary `base`: both the
pointer and the boundary are converted to `int` and compared as such. -/
def validate_pointer_at (base : Nat) (p1 : Nat) : Bool :=
  let address := toInt32 p1
  let ps := toInt32 base
  if address = 0 ∨ address = ps then false
  else if address ≤ 0 ∧ ps ≥ 0 then false
  else if (address > 0 ∧ ps > 0) ∨ (address < 0 ∧ ps < 0) then
    if address ≥ ps then false else true
  else true

/-- The function `validate_pointer`: the validator at `PHYS_BASE`. -/
def validate_pointer (p1 : Nat) : Bool := validate_pointer_at PHYS_BASE p1

/-! ## Collaborator calls and the trace -/

/-- One observable step of the system-call layer. A file handle is an
`Option Nat`: `none` is the C `NULL`. -/
inductive Event where
  | lock_acquire : Event
  | lock_release : Event
  | filesys_create (file : Nat) (initial_size : Nat) (result : Bool) : Event
  | filesys_remove (file : Nat) (result : Bool) : Event
  | filesys_open (file : Nat) (result : Option Nat) : Event
  | file_length (handle : Option Nat) (result : Int) : Event
  | file_read (handle : Option Nat) (buffer : Nat) (size : Nat) (result : Int) : Event
  | file_write (handle : Option Nat) (buffer : Nat) (size : Nat) (result : Int) : Event
  | file_seek (handle : Option Nat) (position : Nat) : Event
  | file_tell (handle : Option Nat) (result : Int) : Event
  | file_close (handle : Option Nat) : Event
  | input_getc (result : Nat) : Event
  | putbuf (buffer : Nat) (size : Nat) : Event
  | process_execute (cmd_line : Nat) (result : Int) : Event
  | process_wait (pid : Int) (result : Int) : Event
  | sema_down_wait_exec : Event
  | shutdown_power_off : Event
  | closeAllOpenFiles (closed : List (Int × Nat)) : Event
  | printf_exit (file_name : Nat) (status : Int) : Event
  | printf_error : Event
  | thread_exit : Event
  deriving DecidableEq, Repr

/-- Calls into the filesystem collaborator. -/
def Event.isFilesys : Event → Bool
  | .filesys_create _ _ _ => true
  | .filesys_remove _ _ => true
  | .filesys_open _ _ => true
  | .file_length _ _ => true
  | .file_read _ _ _ _ => true
  | .file_write _ _ _ _ => true
  | .file_seek _ _ => true
  | .file_tell _ _ => true
  | .file_close _ => true
  | _ => false

/-- Calls into the console collaborator. -/
def Event.isConsole : Event → Bool
  | .input_getc _ => true
  | .putbuf _ _ => true
  | _ => false

/-- The spawn call of the scheduler collaborator. -/
def Event.isSpawn : Event → Bool
  | .process_execute _ _ => true
  | _ => false

/-- Filesystem, console or spawn call. -/
def Event.isCollaborator (ev : Event) : Bool :=
  ev.isFilesys || ev.isConsole || ev.isSpawn

/-- The termination line `name: exit(status)`. -/
def Event.isExitLine : Event → Bool
  | .printf_exit _ _ => true
  | _ => false

/-- A filesystem call that receives `NULL` in place of a file handle. -/
def Event.passesNull : Event → Bool
  | .file_length none _ => true
  | .file_read none _ _ _ => true
  | .file_write none _ _ _ => true
  | .file_seek none _ => true
  | .file_tell none _ => true
  | .file_close none => true
  | _ => false

/-- Answers of the collaborators; each is a function of the trace so far and
of the arguments of the call. -/
structure Env where
  filesys_create : List Event → Nat → Nat → Bool
  filesys_remove : List Event → Nat → Bool
  filesys_open : List Event → Nat → Option Nat
  file_length : List Event → Option Nat → Int
  file_read : List Event → Option Nat → Nat → Nat → Int
  file_write : List Event → Option Nat → Nat → Nat → Int
  file_tell : List Event → Option Nat → Int
  input_getc : List Event → Nat
  process_execute : List Event → Nat → Int
  process_wait : List Event → Int → Int
  /-- value of the caller's `child_sucess` flag when `sema_down` on its
  `wait_exec` returns, given the value before the wait -/
  wait_exec : List Event → Bool → Bool

/-! ## Kernel state -/

/-- The fields of `struct thread` that `syscall.c` uses. The descriptor table
is the list of (handle, file) pairs of the process. -/
structure thread where
  st : Int
  file_name : Nat
  fileDescriptor : Int
  depth : Int
  child_sucess : Bool
  parent_exec : Option Int
  fds : List (Int × Nat)

/-- The kernel state seen by the system-call layer. -/
structure Kernel where
  /-- tid of `thread_current ()` -/
  running : Int
  /-- the thread records, by tid (`get_thread_from_all`) -/
  all : Int → thread
  /-- whether `filesys_lock` is held -/
  filesys_lock : Bool
  /-- memory, byte by byte -/
  mem : Nat → Nat
  trace : List Event

/-- The trapped frame: stack pointer and return-value slot. -/
structure intr_frame where
  esp : Nat
  eax : Nat
  deriving DecidableEq, Repr

/-- Result of a C function that may never return. -/
inductive Ret (α : Type) where
  | val (v : α) : Ret α
  | noreturn : Ret α
  deriving DecidableEq, Repr

/-- Record of the running thread. -/
def thread_current (s : Kernel) : thread := s.all s.running

/-- Appends an event to the trace. -/
def emit (ev : Event) (s : Kernel) : Kernel := { s with trace := s.trace ++ [ev] }

/-- Updates the record of thread `t`. -/
def setThread (t : Int) (f : thread → thread) (s : Kernel) : Kernel :=
  { s with all := fun u => if u = t then f (s.all u) else s.all u }

/-- Updates the record of the running thread. -/
def setCurrent (f : thread → thread) (s : Kernel) : Kernel := setThread s.running f s

/-- The events added to the trace between `s` and `s'`. -/
def newEvents (s s' : Kernel) : List Event := s'.trace.drop s.trace.length

/-- Taking the filesystem lock. -/
def lock_acquire (s : Kernel) : Kernel := emit .lock_acquire { s with filesys_lock := true }

/-- Giving the filesystem lock back. -/
def lock_release (s : Kernel) : Kernel := emit .lock_release { s with filesys_lock := false }

/-- Little-endian 32-bit load from memory. -/
def load32 (mem : Nat → Nat) (a : Nat) : Nat :=
  mem (a % 2 ^ 32) % 256 + 256 * (mem ((a + 1) % 2 ^ 32) % 256)
    + 65536 * (mem ((a + 2) % 2 ^ 32) % 256) + 16777216 * (mem ((a + 3) % 2 ^ 32) % 256)

/-- One-byte store to memory. -/
def store8 (a : Nat) (b : Nat) (s : Kernel) : Kernel :=
  { s with mem := fun x => if x = a % 2 ^ 32 then b % 256 else s.mem x }

/-! ## Descriptor table helpers

`addNewFd`, `getFile`, `closeFile` and `closeAllOpenFiles` are called by
`syscall.c` and defined elsewhere in the repository. -/

/-- Modelled from the spec: `addNewFd` is not among the sources; it "records the (handle,
file-object) pair" in the table of the running process. -/
def addNewFd (fd : Int) (file : Nat) (s : Kernel) : Kernel :=
  setCurrent (fun t => { t with fds := (fd, file) :: t.fds }) s

/-- Modelled from the spec: `getFile` is not among the sources; it gives the file object
recorded for the handle, and `NULL` (here `none`) when the table has no entry
for it, the case `read` tests with `sp == NULL`. -/
def getFile (fd : Int) (s : Kernel) : Option Nat :=
  ((thread_current s).fds.find? (fun p => p.1 == fd)).map (fun p => p.2)

/-- Modelled from the spec: `closeFile` is not among the sources; it "removes the table
entry" of the handle. -/
def closeFile (fd : Int) (s : Kernel) : Kernel :=
  setCurrent (fun t => { t with fds := t.fds.filter (fun p => !(p.1 == fd)) }) s

/-- Modelled from the spec: `closeAllOpenFiles` is not among the sources; it "closes every
entry still owned by that process". It is one step of the trace, which
records the entries closed. -/
def closeAllOpenFiles (s : Kernel) : Kernel :=
  emit (.closeAllOpenFiles (thread_current s).fds) (setCurrent (fun t => { t with fds := [] }) s)

/-! ## Process lifecycle (`syscall.c`, lines 21-58) -/

/-- The function `halt`: powers the machine off and never returns. -/
def halt (s : Kernel) : Ret Unit × Kernel := (.noreturn, emit .shutdown_power_off s)

/-- The function `exit`: closes the open files, records the status, prints the
termination line and leaves through `thread_exit`, which never returns. -/
def exit {α : Type} (status : Int) (s : Kernel) : Ret α × Kernel :=
  let s := closeAllOpenFiles s
  let s := setCurrent (fun t => { t with st := status }) s
  let s := emit (.printf_exit (thread_current s).file_name status) s
  (.noreturn, emit .thread_exit s)

/-- The function `exec`. The sum `depth + 1` is computed only when `depth` is at
most 30, where it cannot overflow an `int`. -/
def exec (e : Env) (cmd_line : Nat) (s : Kernel) : Ret Int × Kernel :=
  if !validate_pointer cmd_line || cmd_line == 0 then exit (-1) s
  else if (thread_current s).depth > 30 then (.val (-1), s)
  else
    let child_pid := e.process_execute s.trace cmd_line
    let s := emit (.process_execute cmd_line child_pid) s
    if child_pid = -1 then (.val (-1), s)
    else
      let d := (thread_current s).depth + 1
      let s := setThread child_pid (fun t => { t with depth := d }) s
      let s := setThread child_pid (fun t => { t with parent_exec := some s.running }) s
      let flag := e.wait_exec s.trace (thread_current s).child_sucess
      let s := emit .sema_down_wait_exec (setCurrent (fun t => { t with child_sucess := flag }) s)
      if (thread_current s).child_sucess then (.val child_pid, s) else (.val (-1), s)

/-- The function `wait`. -/
def wait (e : Env) (pid : Int) (s : Kernel) : Ret Int × Kernel :=
  let r := e.process_wait s.trace pid
  (.val r, emit (.process_wait pid r) s)

/-! ## File operations (`syscall.c`, lines 60-193) -/

/-- The function `create`. -/
def create (e : Env) (file : Nat) (initial_size : Nat) (s : Kernel) : Ret Bool × Kernel :=
  if !validate_pointer file || file == 0 then exit (-1) s
  else
    let s := lock_acquire s
    let r := e.filesys_create s.trace file initial_size
    let s := emit (.filesys_create file initial_size r) s
    let s := lock_release s
    (.val r, s)

/-- The function `remove`. -/
def remove (e : Env) (file : Nat) (s : Kernel) : Ret Bool × Kernel :=
  if !validate_pointer file || file == 0 then exit (-1) s
  else
    let s := lock_acquire s
    let r := e.filesys_remove s.trace file
    let s := emit (.filesys_remove file r) s
    let s := lock_release s
    (.val r, s)

/-- The function `open` (the name is a keyword of Lean, hence the underscore). -/
def open_ (e : Env) (file : Nat) (s : Kernel) : Ret Int × Kernel :=
  if !validate_pointer file || file == 0 then exit (-1) s
  else
    let s := lock_acquire s
    let spFile := e.filesys_open s.trace file
    let s := emit (.filesys_open file spFile) s
    match spFile with
    | none => (.val (-1), lock_release s)
    | some h =>
      let s := addNewFd (thread_current s).fileDescriptor h s
      let sp := (thread_current s).fileDescriptor
      let s := setCurrent (fun t => { t with fileDescriptor := wrapInt (t.fileDescriptor + 1) }) s
      let s := lock_release s
      (.val sp, s)

/-- The function `filesize`: for descriptors 0 and 1 the lock is released and
control goes on to `file_length`. -/
def filesize (e : Env) (fd : Int) (s : Kernel) : Ret Int × Kernel :=
  let s := lock_acquire s
  let s := if fd = 1 ∨ fd = 0 then lock_release s else s
  let r := e.file_length s.trace (getFile fd s)
  let s := emit (.file_length (getFile fd s) r) s
  let s := lock_release s
  (.val r, s)

/-- The loop of `read` for descriptor 0: `n` more characters are taken from the
console, the next one going to `buffer + i`. -/
def read_console (e : Env) (buffer : Nat) : Nat → Nat → Kernel → Kernel
  | 0, _, s => s
  | n + 1, i, s =>
    let c := e.input_getc s.trace
    let s := emit (.input_getc c) s
    let s := store8 (buffer + i) c s
    read_console e buffer n (i + 1) s

/-- The function `read`; `size` is an `unsigned`, returned as an `int`. -/
def read (e : Env) (fd : Int) (buffer : Nat) (size : Nat) (s : Kernel) : Ret Int × Kernel :=
  let s := lock_acquire s
  if !validate_pointer buffer || buffer == 0 then exit (-1) (lock_release s)
  else if fd = 0 then
    let s := read_console e buffer size 0 s
    let s := lock_release s
    (.val (toInt32 size), s)
  else if fd = 1 then exit (-1) (lock_release s)
  else
    match getFile fd s with
    | none => (.val (-1), lock_release s)
    | some sp =>
      let r := e.file_read s.trace (some sp) buffer size
      let s := emit (.file_read (some sp) buffer size r) s
      let s := lock_release s
      (.val r, s)

/-- The function `write`: for descriptor 0 the lock is released and control
goes on to `file_write`. -/
def write (e : Env) (fd : Int) (buffer : Nat) (size : Nat) (s : Kernel) : Ret Int × Kernel :=
  let s := lock_acquire s
  if !validate_pointer buffer || buffer == 0 then exit (-1) (lock_release s)
  else if fd = 1 then
    let s := emit (.putbuf buffer size) s
    let s := lock_release s
    (.val (toInt32 size), s)
  else
    let s := if fd = 0 then lock_release s else s
    let r := e.file_write s.trace (getFile fd s) buffer size
    let s := emit (.file_write (getFile fd s) buffer size r) s
    let s := lock_release s
    (.val r, s)

/-- The function `seek`. -/
def seek (fd : Int) (position : Nat) (s : Kernel) : Ret Unit × Kernel :=
  let s := lock_acquire s
  let s := emit (.file_seek (getFile fd s) position) s
  let s := lock_release s
  (.val (), s)

/-- The function `tell`; the result is an `unsigned`. -/
def tell (e : Env) (fd : Int) (s : Kernel) : Ret Nat × Kernel :=
  let s := lock_acquire s
  if fd = 0 ∨ fd = 1 then (.val 0, lock_release s)
  else
    let r := e.file_tell s.trace (getFile fd s)
    let s := emit (.file_tell (getFile fd s) r) s
    let s := lock_release s
    (.val (toWord r), s)

/-- The function `close`. -/
def close (fd : Int) (s : Kernel) : Ret Unit × Kernel :=
  let s := lock_acquire s
  let s := emit (.file_close (getFile fd s)) s
  let s := closeFile fd s
  let s := lock_release s
  (.val (), s)

/-! ## Dispatcher (`syscall.c`, lines 196-277) -/

/-- Modelled from the spec: the opcode numbers come from `lib/syscall-nr.h`, which is not among the
sources; they are the thirteen opcodes the spec lists, numbered in that order
from 0. -/
def SYS_HALT : Nat := 0
/-- Opcode of `exit`. -/
def SYS_EXIT : Nat := 1
/-- Opcode of `exec`. -/
def SYS_EXEC : Nat := 2
/-- Opcode of `wait`. -/
def SYS_WAIT : Nat := 3
/-- Opcode of `create`. -/
def SYS_CREATE : Nat := 4
/-- Opcode of `remove`. -/
def SYS_REMOVE : Nat := 5
/-- Opcode of `open`. -/
def SYS_OPEN : Nat := 6
/-- Opcode of `filesize`. -/
def SYS_FILESIZE : Nat := 7
/-- Opcode of `read`. -/
def SYS_READ : Nat := 8
/-- Opcode of `write`. -/
def SYS_WRITE : Nat := 9
/-- Opcode of `seek`. -/
def SYS_SEEK : Nat := 10
/-- Opcode of `tell`. -/
def SYS_TELL : Nat := 11
/-- Opcode of `close`. -/
def SYS_CLOSE : Nat := 12

/-- Address of the word `top_of_stack + k`. -/
def argAddr (f : intr_frame) (k : Nat) : Nat := (f.esp + 4 * k) % 2 ^ 32

/-- The word `*(top_of_stack + k)`. -/
def arg (f : intr_frame) (s : Kernel) (k : Nat) : Nat := load32 s.mem (argAddr f k)

/-- Stores a returned value in the return slot of the frame; a call that never
returns leaves the frame as it is. -/
def setEax {α : Type} (f : intr_frame) (conv : α → Nat) (r : Ret α × Kernel) :
    Ret Unit × intr_frame × Kernel :=
  match r.1 with
  | .val v => (.val (), { f with eax := conv v % 2 ^ 32 }, r.2)
  | .noreturn => (.noreturn, f, r.2)

/-- Result of an operation that returns nothing. -/
def noEax {α : Type} (f : intr_frame) (r : Ret α × Kernel) : Ret Unit × intr_frame × Kernel :=
  match r.1 with
  | .val _ => (.val (), f, r.2)
  | .noreturn => (.noreturn, f, r.2)

/-- The function `syscall_handler`. -/
def syscall_handler (e : Env) (f : intr_frame) (s : Kernel) : Ret Unit × intr_frame × Kernel :=
  if !validate_pointer (argAddr f 0) || argAddr f 0 == 0 then
    noEax f (exit (-1) s : Ret Unit × Kernel)
  else
    let op := arg f s 0
    if op = SYS_HALT then noEax f (halt s)
    else if op = SYS_EXIT then
      if !validate_pointer (argAddr f 1) then noEax f (exit (-1) s : Ret Unit × Kernel)
      else noEax f (exit (toInt32 (arg f s 1)) s : Ret Unit × Kernel)
    else if op = SYS_EXEC then
      if !validate_pointer (argAddr f 1) then noEax f (exit (-1) s : Ret Unit × Kernel)
      else setEax f toWord (exec e (arg f s 1) s)
    else if op = SYS_WAIT then
      if !validate_pointer (argAddr f 1) then noEax f (exit (-1) s : Ret Unit × Kernel)
      else setEax f toWord (wait e (toInt32 (arg f s 1)) s)
    else if op = SYS_CREATE then
      if !(validate_pointer (argAddr f 1) && validate_pointer (argAddr f 2)) then
        noEax f (exit (-1) s : Ret Unit × Kernel)
      else setEax f (fun b => if b then 1 else 0) (create e (arg f s 1) (arg f s 2) s)
    else if op = SYS_REMOVE then
      if !validate_pointer (argAddr f 1) then noEax f (exit (-1) s : Ret Unit × Kernel)
      else setEax f (fun b => if b then 1 else 0) (remove e (arg f s 1) s)
    else if op = SYS_OPEN then
      if !validate_pointer (argAddr f 1) then noEax f (exit (-1) s : Ret Unit × Kernel)
      else setEax f toWord (open_ e (arg f s 1) s)
    else if op = SYS_FILESIZE then
      if !validate_pointer (argAddr f 1) then noEax f (exit (-1) s : Ret Unit × Kernel)
      else setEax f toWord (filesize e (toInt32 (arg f s 1)) s)
    else if op = SYS_READ then
      if !(validate_pointer (argAddr f 1) && validate_pointer (argAddr f 2)
          && validate_pointer (argAddr f 3)) then noEax f (exit (-1) s : Ret Unit × Kernel)
      else setEax f toWord (read e (toInt32 (arg f s 1)) (arg f s 2) (arg f s 3) s)
    else if op = SYS_WRITE then
      if !(validate_pointer (argAddr f 1) && validate_pointer (argAddr f 2)
          && validate_pointer (argAddr f 3)) then noEax f (exit (-1) s : Ret Unit × Kernel)
      else setEax f toWord (write e (toInt32 (arg f s 1)) (arg f s 2) (arg f s 3) s)
    else if op = SYS_SEEK then
      if !(validate_pointer (argAddr f 1) && validate_pointer (argAddr f 2)) then
        noEax f (exit (-1) s : Ret Unit × Kernel)
      else noEax f (seek (toInt32 (arg f s 1)) (arg f s 2) s)
    else if op = SYS_TELL then
      if !validate_pointer (argAddr f 1) then noEax f (exit (-1) s : Ret Unit × Kernel)
      else setEax f id (tell e (toInt32 (arg f s 1)) s)
    else if op = SYS_CLOSE then
      if !validate_pointer (argAddr f 1) then noEax f (exit (-1) s : Ret Unit × Kernel)
      else noEax f (close (toInt32 (arg f s 1)) s)
    else (.val (), f, emit .printf_error s)

/-! ## Concrete states and collaborators -/

/-- A freshly started process: next descriptor 2, empty table. -/
def freshThread (depth : Int) : thread where
  st := 0
  file_name := 7
  fileDescriptor := 2
  depth := depth
  child_sucess := false
  parent_exec := none
  fds := []

/-- A kernel whose threads are all fresh and of the given fork depth; thread 1
is running, the lock is free and memory holds `byte` at every address. -/
def kernelAtDepth (depth : Int) (byte : Nat) : Kernel where
  running := 1
  all := fun _ => freshThread depth
  filesys_lock := false
  mem := fun _ => byte
  trace := []

/-- Collaborators with fixed answers: every spawn gives `pid`, every load
reports `loaded`, every open gives `file`. -/
def fixedEnv (pid : Int) (loaded : Bool) (file : Option Nat) : Env where
  filesys_create := fun _ _ _ => true
  filesys_remove := fun _ _ => true
  filesys_open := fun _ _ => file
  file_length := fun _ _ => 5
  file_read := fun _ _ _ _ => 3
  file_write := fun _ _ _ _ => 4
  file_tell := fun _ _ => 9
  input_getc := fun _ => 65
  process_execute := fun _ _ => pid
  process_wait := fun _ _ => 0
  wait_exec := fun _ _ => loaded

/-- The kernel after the process of `kernelAtDepth 0 0` has opened a file,
which it gets as descriptor 2, and closed it again. -/
def closedFdKernel : Kernel :=
  (close 2 (open_ (fixedEnv 7 true (some 100)) 0x08048000 (kernelAtDepth 0 0)).2).2

/-- Memory of a process that has pushed a `write` call at `0xBFFFFF00`: the
opcode 9, the descriptor 1, the buffer `0xC0000000` and the size 4; zero
elsewhere. -/
def writeCallMem (a : Nat) : Nat :=
  if a = 0xBFFFFF00 then 9
  else if a = 0xBFFFFF04 then 1
  else if a = 0xBFFFFF0B then 0xC0
  else if a = 0xBFFFFF0C then 4
  else 0

/-- The kernel `kernelAtDepth 0 0` with the memory `writeCallMem`. -/
def writeCallKernel : Kernel := { kernelAtDepth 0 0 with mem := writeCallMem }

/-- The frame trapped with its stack pointer at `0xBFFFFF00`. -/
def writeCallFrame : intr_frame where
  esp := 0xBFFFFF00
  eax := 0

/-! ## Exec chains -/

/-- The state `exec` leaves after a successful spawn of `pid`: the spawn is
traced, the child record gets its depth and parent link, the caller waits on
its load rendezvous. -/
def execSpawned (e : Env) (cmd_line : Nat) (pid : Int) (s : Kernel) : Kernel :=
  let s1 := emit (.process_execute cmd_line pid) s
  let s2 := setThread pid (fun t => { t with depth := (thread_current s).depth + 1 }) s1
  let s3 := setThread pid (fun t => { t with parent_exec := some s.running }) s2
  emit .sema_down_wait_exec
    (setCurrent
      (fun t => { t with child_sucess := e.wait_exec s1.trace (thread_current s3).child_sucess })
      s3)

/-- State of the lock after an event, `held` being its state before. -/
def lockAfter (held : Bool) : Event → Bool
  | .lock_acquire => true
  | .lock_release => false
  | _ => held

/-- State of the lock after a list of events. -/
def heldAfter : Bool → List Event → Bool
  | held, [] => held
  | held, ev :: rest => heldAfter (lockAfter held ev) rest

/-- Number of acquisitions of the lock in a list of events. -/
def lockAcquires : List Event → Nat
  | [] => 0
  | .lock_acquire :: rest => lockAcquires rest + 1
  | _ :: rest => lockAcquires rest

/-- Every filesystem or console call of the list is made with the lock held. -/
def callsUnderLock : Bool → List Event → Bool
  | _, [] => true
  | held, ev :: rest =>
    (if ev.isFilesys || ev.isConsole then held else true) && callsUnderLock (lockAfter held ev) rest

/-- Every release of the list is made with the lock held. -/
def releasesWhileHeld : Bool → List Event → Bool
  | _, [] => true
  | held, .lock_release :: rest => held && releasesWhileHeld false rest
  | held, ev :: rest => releasesWhileHeld (lockAfter held ev) rest

/-- The lock is never taken while already held. -/
def acquiresWhileFree : Bool → List Event → Bool
  | _, [] => true
  | held, .lock_acquire :: rest => !held && acquiresWhileFree true rest
  | held, ev :: rest => acquiresWhileFree (lockAfter held ev) rest

/-- A call of one of the nine operations that take the filesystem lock. -/
inductive FileOp where
  | create (file : Nat) (initial_size : Nat) : FileOp
  | remove (file : Nat) : FileOp
  | open_ (file : Nat) : FileOp
  | filesize (fd : Int) : FileOp
  | read (fd : Int) (buffer : Nat) (size : Nat) : FileOp
  | write (fd : Int) (buffer : Nat) (size : Nat) : FileOp
  | seek (fd : Int) (position : Nat) : FileOp
  | tell (fd : Int) : FileOp
  | close (fd : Int) : FileOp
  deriving DecidableEq, Repr

/-- The kernel after the call. -/
def FileOp.run (e : Env) : FileOp → Kernel → Kernel
  | .create file initial_size, s => (Pintos.create e file initial_size s).2
  | .remove file, s => (Pintos.remove e file s).2
  | .open_ file, s => (Pintos.open_ e file s).2
  | .filesize fd, s => (Pintos.filesize e fd s).2
  | .read fd buffer size, s => (Pintos.read e fd buffer size s).2
  | .write fd buffer size, s => (Pintos.write e fd buffer size s).2
  | .seek fd position, s => (Pintos.seek fd position s).2
  | .tell fd, s => (Pintos.tell e fd s).2
  | .close fd, s => (Pintos.close fd s).2

/-- The calls that release the lock and go on to the file operation:
`filesize` on descriptor 0 or 1, and `write` on descriptor 0 with a buffer that
passes the validator. -/
def FileOp.fallsThrough : FileOp → Bool
  | .filesize fd => decide (fd = 0 ∨ fd = 1)
  | .write fd buffer _ => decide (fd = 0) && validate_pointer buffer
  | _ => false

/-- The calls that end in `exit (-1)` before the lock is taken: `create`,
`remove` and `open` with a path pointer that the validator rejects. -/
def FileOp.rejectedBeforeLock : FileOp → Bool
  | .create file _ => !validate_pointer file
  | .remove file => !validate_pointer file
  | .open_ file => !validate_pointer file
  | _ => false

/-! ## Argument words of the opcodes -/

/-- Number of argument words of a recognised opcode, as the spec gives them:
none for `halt`, two for `create` and `seek`, three for `read` and `write`, one
for the others; `none` for an opcode that is not recognised. -/
def arity (op : Nat) : Option Nat :=
  if op = SYS_HALT then some 0
  else if op = SYS_EXIT ∨ op = SYS_EXEC ∨ op = SYS_WAIT ∨ op = SYS_REMOVE ∨ op = SYS_OPEN
      ∨ op = SYS_FILESIZE ∨ op = SYS_TELL ∨ op = SYS_CLOSE then some 1
  else if op = SYS_CREATE ∨ op = SYS_SEEK then some 2
  else if op = SYS_READ ∨ op = SYS_WRITE then some 3
  else none

/-- Index of the argument word that holds the user pointer of the call: the
command line of `exec`, the path of `create`, `remove` and `open`, the buffer
of `read` and `write`. -/
def userPointerArg (op : Nat) : Option Nat :=
  if op = SYS_EXEC ∨ op = SYS_CREATE ∨ op = SYS_REMOVE ∨ op = SYS_OPEN then some 1
  else if op = SYS_READ ∨ op = SYS_WRITE then some 2
  else none

/-- The validator rejects the stack pointer, or the opcode is recognised and
the validator rejects the address of one of its argument words or the user
pointer of the call. -/
def validationFails (f : intr_frame) (s : Kernel) : Bool :=
  !validate_pointer (argAddr f 0) ||
    match arity (arg f s 0) with
    | none => false
    | some n =>
      (List.range n).any (fun k => !validate_pointer (argAddr f (k + 1))) ||
        match userPointerArg (arg f s 0) with
        | none => false
        | some k => !validate_pointer (arg f s k)

/-- The lock discipline between two states of the kernel, the lock being free
in the first: the events in between take the lock `n` times and never while it
is held, make every filesystem or console call with the lock held, release
the lock only while it is held, and leave it free. -/
def LockDiscipline (n : Nat) (s s' : Kernel) : Prop :=
  lockAcquires (newEvents s s') = n ∧
  acquiresWhileFree false (newEvents s s') = true ∧
  callsUnderLock false (newEvents s s') = true ∧
  releasesWhileHeld false (newEvents s s') = true ∧
  heldAfter false (newEvents s s') = false ∧
  s'.filesys_lock = false

/-- The outcome "ends in `exit (-1)`" of a run of the dispatcher from frame `f`
and state `s`: the handler does not return, the frame is as it was, the status
recorded is -1, one termination line is printed, and the events hold no
filesystem, console or spawn call. -/
def EndsInExitMinusOne (f : intr_frame) (s : Kernel) (r : Ret Unit × intr_frame × Kernel) :
    Prop :=
  r.1 = Ret.noreturn ∧ r.2.1 = f ∧ (thread_current r.2.2).st = -1 ∧
  (newEvents s r.2.2).filter Event.isExitLine
    = [.printf_exit (thread_current s).file_name (-1)] ∧
  (newEvents s r.2.2).filter Event.isCollaborator = []

/-! ## Facts on the validator -/

theorem toInt32_PHYS_BASE : toInt32 PHYS_BASE = -1073741824 := by
  unfold toInt32 PHYS_BASE
  norm_num

theorem toInt32_of_lt_half (a : Nat) (h : a < 2 ^ 31) : toInt32 a = (a : Int) := by
  have h1 : a % 2 ^ 32 = a := Nat.mod_eq_of_lt (by omega)
  unfold toInt32
  rw [h1, if_pos h]

theorem toInt32_of_ge_half (a : Nat) (h : 2 ^ 31 ≤ a) (h2 : a < 2 ^ 32) :
    toInt32 a = (a : Int) - 2 ^ 32 := by
  have h1 : a % 2 ^ 32 = a := Nat.mod_eq_of_lt h2
  unfold toInt32
  rw [h1, if_neg (by omega)]

/-- Characterisation of `validate_pointer` on 32-bit addresses: an address is
accepted exactly when it is not null and lies below `PHYS_BASE` as an unsigned
number. -/
theorem validate_pointer_iff (a : Nat) (h : a < 2 ^ 32) :
    validate_pointer a = true ↔ 0 < a ∧ a < PHYS_BASE := by
  unfold validate_pointer validate_pointer_at
  rw [toInt32_PHYS_BASE]
  unfold PHYS_BASE
  by_cases hlt : a < 2 ^ 31
  · rw [toInt32_of_lt_half a hlt]
    simp only []
    split_ifs <;> simp_all <;> omega
  · rw [toInt32_of_ge_half a (by omega) h]
    simp only []
    split_ifs <;> simp_all <;> omega

/-- C1: for every 32-bit address `a`, `validate_pointer a` is false when `a` is
null, equals `PHYS_BASE` or lies above it as an unsigned address, and true for
every `a` with `0 < a < PHYS_BASE` as an unsigned address, the addresses
`0x80000000 .. 0xBFFFFFFF`, negative as `int`s, included. -/
theorem validate_pointer_spec (a : Nat) (h : a < 2 ^ 32) :
    (a = 0 → validate_pointer a = false) ∧
    (a = PHYS_BASE → validate_pointer a = false) ∧
    (PHYS_BASE < a → validate_pointer a = false) ∧
    (0 < a → a < PHYS_BASE → validate_pointer a = true) ∧
    (0x80000000 ≤ a → a ≤ 0xBFFFFFFF → toInt32 a < 0 ∧ validate_pointer a = true) := by
  have key := validate_pointer_iff a h
  have hf : ¬ (0 < a ∧ a < PHYS_BASE) → validate_pointer a = false := by
    intro hn
    cases hv : validate_pointer a
    · rfl
    · exact absurd (key.mp hv) hn
  refine ⟨fun h0 => hf (by omega), fun h0 => hf (by omega), fun h0 => hf (by omega),
    fun h0 h1 => key.mpr ⟨h0, h1⟩, fun h0 h1 => ⟨?_, key.mpr ⟨by omega, ?_⟩⟩⟩
  · rw [toInt32_of_ge_half a (by omega) h]
    omega
  · unfold PHYS_BASE
    omega

/-- Witness for C1 at the address `0x80000000`. -/
theorem validate_pointer_spec_witness :
    (0x80000000 = 0 → validate_pointer 0x80000000 = false) ∧
    (0x80000000 = PHYS_BASE → validate_pointer 0x80000000 = false) ∧
    (PHYS_BASE < 0x80000000 → validate_pointer 0x80000000 = false) ∧
    (0 < 0x80000000 → 0x80000000 < PHYS_BASE → validate_pointer 0x80000000 = true) ∧
    (0x80000000 ≤ 0x80000000 → 0x80000000 ≤ 0xBFFFFFFF →
      toInt32 0x80000000 < 0 ∧ validate_pointer 0x80000000 = true) :=
  validate_pointer_spec 0x80000000 (by norm_num)

/-! ## Facts on the trace -/

theorem validate_pointer_zero : validate_pointer 0 = false := by decide

theorem ne_zero_of_valid (p : Nat) (h : validate_pointer p = true) : (p == 0) = false := by
  cases hp : p == 0
  · rfl
  · have h0 : p = 0 := by simpa using hp
    rw [h0, validate_pointer_zero] at h
    cases h

theorem newEvents_of_append (s s' : Kernel) (l : List Event) (h : s'.trace = s.trace ++ l) :
    newEvents s s' = l := by
  unfold newEvents
  rw [h]
  simp

theorem newEvents_self (s : Kernel) : newEvents s s = [] := by
  unfold newEvents
  simp

/-! ## `exec` -/

/-- The path of `exec` stopped by the depth gate. -/
theorem exec_over_depth (e : Env) (cmd_line : Nat) (s : Kernel)
    (hv : validate_pointer cmd_line = true) (hd : (thread_current s).depth > 30) :
    exec e cmd_line s = (Ret.val (-1), s) := by
  unfold exec
  rw [hv, ne_zero_of_valid cmd_line hv]
  simp [hd]

/-- C6: with a valid command-line pointer and a caller of fork depth greater
than 30, `exec` returns -1 and leaves the kernel state as it was: the spawn is
not invoked, no thread record (child depth, parent link) is written, and the
caller does not wait on its load rendezvous. -/
theorem exec_depth_exceeded (e : Env) (cmd_line : Nat) (s : Kernel)
    (hv : validate_pointer cmd_line = true) (hd : (thread_current s).depth > 30) :
    exec e cmd_line s = (Ret.val (-1), s) ∧
    newEvents s (exec e cmd_line s).2 = [] ∧
    (exec e cmd_line s).2.all = s.all := by
  rw [exec_over_depth e cmd_line s hv hd]
  exact ⟨rfl, newEvents_self s, rfl⟩

/-- Witness for C6: a caller of depth 31. -/
theorem exec_depth_exceeded_witness :
    exec (fixedEnv 7 true none) 0x08048000 (kernelAtDepth 31 0)
      = (Ret.val (-1), kernelAtDepth 31 0) ∧
    newEvents (kernelAtDepth 31 0)
      (exec (fixedEnv 7 true none) 0x08048000 (kernelAtDepth 31 0)).2 = [] ∧
    (exec (fixedEnv 7 true none) 0x08048000 (kernelAtDepth 31 0)).2.all
      = (kernelAtDepth 31 0).all :=
  exec_depth_exceeded (fixedEnv 7 true none) 0x08048000 (kernelAtDepth 31 0)
    (by decide) (by decide)

@[simp]
theorem emit_trace (ev : Event) (s : Kernel) : (emit ev s).trace = s.trace ++ [ev] := rfl
@[simp]
theorem emit_running (ev : Event) (s : Kernel) : (emit ev s).running = s.running := rfl
@[simp]
theorem emit_all (ev : Event) (s : Kernel) : (emit ev s).all = s.all := rfl
@[simp]
theorem emit_lock (ev : Event) (s : Kernel) :
    (emit ev s).filesys_lock = s.filesys_lock := rfl
@[simp]
theorem thread_current_emit (ev : Event) (s : Kernel) :
    thread_current (emit ev s) = thread_current s := rfl
@[simp]
theorem setThread_trace (t : Int) (f : thread → thread) (s : Kernel) :
    (setThread t f s).trace = s.trace := rfl
@[simp]
theorem setThread_running (t : Int) (f : thread → thread) (s : Kernel) :
    (setThread t f s).running = s.running := rfl
@[simp]
theorem setThread_lock (t : Int) (f : thread → thread) (s : Kernel) :
    (setThread t f s).filesys_lock = s.filesys_lock := rfl
@[simp]
theorem setCurrent_trace (f : thread → thread) (s : Kernel) :
    (setCurrent f s).trace = s.trace := rfl
@[simp]
theorem setCurrent_running (f : thread → thread) (s : Kernel) :
    (setCurrent f s).running = s.running := rfl
@[simp]
theorem setCurrent_lock (f : thread → thread) (s : Kernel) :
    (setCurrent f s).filesys_lock = s.filesys_lock := rfl
@[simp]
theorem thread_current_setCurrent (f : thread → thread) (s : Kernel) :
    thread_current (setCurrent f s) = f (thread_current s) := by
  simp [thread_current, setCurrent, setThread]

/-- The trace left by `exit`. -/
theorem exit_trace {α : Type} (status : Int) (s : Kernel) :
    (exit status s : Ret α × Kernel).2.trace =
      s.trace ++ [.closeAllOpenFiles (thread_current s).fds,
        .printf_exit (thread_current s).file_name status, .thread_exit] := by
  simp [exit, closeAllOpenFiles]

theorem exit_status {α : Type} (status : Int) (s : Kernel) :
    (thread_current (exit status s : Ret α × Kernel).2).st = status := by
  simp [exit, closeAllOpenFiles]

/-- The path of `exec` past the depth gate. -/
theorem exec_past_gate (e : Env) (cmd_line : Nat) (s : Kernel)
    (hv : validate_pointer cmd_line = true) (hd : (thread_current s).depth ≤ 30) :
    exec e cmd_line s =
      if e.process_execute s.trace cmd_line = -1 then
        (Ret.val (-1), emit (.process_execute cmd_line (-1)) s)
      else
        (if (thread_current
              (execSpawned e cmd_line (e.process_execute s.trace cmd_line) s)).child_sucess
          then Ret.val (e.process_execute s.trace cmd_line) else Ret.val (-1),
          execSpawned e cmd_line (e.process_execute s.trace cmd_line) s) := by
  unfold exec
  rw [hv, ne_zero_of_valid cmd_line hv]
  have hd' : ¬ (thread_current s).depth > 30 := by omega
  by_cases hp : e.process_execute s.trace cmd_line = -1
  · simp [hd', hp]
  · simp only [Bool.not_true, Bool.or_self, Bool.false_eq_true, if_false, hd', hp, execSpawned,
      thread_current_emit, emit_running, setThread_running, emit_trace, setThread_trace]
    split <;> rfl

theorem execSpawned_trace (e : Env) (cmd_line : Nat) (pid : Int) (s : Kernel) :
    (execSpawned e cmd_line pid s).trace =
      s.trace ++ [.process_execute cmd_line pid, .sema_down_wait_exec] := by
  simp [execSpawned]

/-- The flag the caller reads after its wait is the answer of the environment
to that wait: the child record written in between leaves the flag of the
caller alone. -/
theorem execSpawned_flag (e : Env) (cmd_line : Nat) (pid : Int) (s : Kernel) :
    (thread_current (execSpawned e cmd_line pid s)).child_sucess =
      e.wait_exec (s.trace ++ [.process_execute cmd_line pid])
        (thread_current s).child_sucess := by
  have h3 : (thread_current
      (setThread pid (fun t => { t with parent_exec := some s.running })
        (setThread pid (fun t => { t with depth := (thread_current s).depth + 1 })
          (emit (.process_execute cmd_line pid) s)))).child_sucess
      = (thread_current s).child_sucess := by
    by_cases h : s.running = pid
    · simp [thread_current, setThread, emit, h]
    · simp [thread_current, setThread, emit, h]
  simp only [execSpawned, thread_current_emit, thread_current_setCurrent, emit_trace]
  rw [h3]

/-- C8: with a valid command-line pointer and a caller of depth at most 30, a
spawn that returns -1 makes `exec` return -1 with nothing done but the spawn
call (no thread record written, no wait on the rendezvous); a spawn that
returns a pid is followed by exactly one wait on the caller's load
rendezvous, the caller's load-success flag is then what that wait left (the
answer `wait_exec` of the environment to the wait), and `exec` returns that
pid exactly when the flag is true, and -1 when the flag is false. -/
theorem exec_spawn_result (e : Env) (cmd_line : Nat) (s : Kernel)
    (hv : validate_pointer cmd_line = true) (hd : (thread_current s).depth ≤ 30) :
    (e.process_execute s.trace cmd_line = -1 →
      exec e cmd_line s = (Ret.val (-1), emit (.process_execute cmd_line (-1)) s)) ∧
    (e.process_execute s.trace cmd_line ≠ -1 →
      newEvents s (exec e cmd_line s).2 =
        [.process_execute cmd_line (e.process_execute s.trace cmd_line),
          .sema_down_wait_exec] ∧
      ((exec e cmd_line s).1 = Ret.val (e.process_execute s.trace cmd_line) ↔
        (thread_current (exec e cmd_line s).2).child_sucess = true) ∧
      ((thread_current (exec e cmd_line s).2).child_sucess = false →
        (exec e cmd_line s).1 = Ret.val (-1)) ∧
      (thread_current (exec e cmd_line s).2).child_sucess =
        e.wait_exec
          (s.trace ++ [.process_execute cmd_line (e.process_execute s.trace cmd_line)])
          (thread_current s).child_sucess ∧
      (e.wait_exec
          (s.trace ++ [.process_execute cmd_line (e.process_execute s.trace cmd_line)])
          (thread_current s).child_sucess = true →
        (exec e cmd_line s).1 = Ret.val (e.process_execute s.trace cmd_line)) ∧
      (e.wait_exec
          (s.trace ++ [.process_execute cmd_line (e.process_execute s.trace cmd_line)])
          (thread_current s).child_sucess = false →
        (exec e cmd_line s).1 = Ret.val (-1))) := by
  rw [exec_past_gate e cmd_line s hv hd]
  constructor
  · intro hp
    rw [if_pos hp]
  · intro hp
    rw [if_neg hp]
    have hflag := execSpawned_flag e cmd_line (e.process_execute s.trace cmd_line) s
    refine ⟨newEvents_of_append _ _ _ (execSpawned_trace _ _ _ _), ?_, ?_, hflag, ?_, ?_⟩
    · cases hf : (thread_current
          (execSpawned e cmd_line (e.process_execute s.trace cmd_line) s)).child_sucess
      · simp only [Bool.false_eq_true, if_false, iff_false]
        intro h
        exact hp (Ret.val.inj h).symm
      · simp
    · intro hf
      simp only [hf, Bool.false_eq_true, if_false]
    · intro hw
      simp only [hflag, hw, if_true]
    · intro hw
      simp only [hflag, hw, Bool.false_eq_true, if_false]

/-- Witness for C8: a caller of depth 30 and a spawn that gives pid 7; when
the child reports a successful load `exec` returns 7, when it reports a failed
load `exec` returns -1, each after one spawn and one wait. -/
theorem exec_spawn_result_witness :
    ((fixedEnv 7 true none).process_execute (kernelAtDepth 30 0).trace 0x08048000 ≠ -1) ∧
    (exec (fixedEnv 7 true none) 0x08048000 (kernelAtDepth 30 0)).1 = Ret.val 7 ∧
    (thread_current
      (exec (fixedEnv 7 true none) 0x08048000 (kernelAtDepth 30 0)).2).child_sucess = true ∧
    (exec (fixedEnv 7 false none) 0x08048000 (kernelAtDepth 30 0)).1 = Ret.val (-1) ∧
    (thread_current
      (exec (fixedEnv 7 false none) 0x08048000 (kernelAtDepth 30 0)).2).child_sucess = false ∧
    newEvents (kernelAtDepth 30 0)
      (exec (fixedEnv 7 false none) 0x08048000 (kernelAtDepth 30 0)).2 =
        [.process_execute 0x08048000 7, .sema_down_wait_exec] :=
  ⟨by decide,
    ((exec_spawn_result (fixedEnv 7 true none) 0x08048000 (kernelAtDepth 30 0)
      (by decide) (by decide)).2 (by decide)).2.2.2.2.1 (by decide),
    ((exec_spawn_result (fixedEnv 7 true none) 0x08048000 (kernelAtDepth 30 0)
      (by decide) (by decide)).2 (by decide)).2.2.2.1,
    ((exec_spawn_result (fixedEnv 7 false none) 0x08048000 (kernelAtDepth 30 0)
      (by decide) (by decide)).2 (by decide)).2.2.2.2.2 (by decide),
    ((exec_spawn_result (fixedEnv 7 false none) 0x08048000 (kernelAtDepth 30 0)
      (by decide) (by decide)).2 (by decide)).2.2.2.1,
    ((exec_spawn_result (fixedEnv 7 false none) 0x08048000 (kernelAtDepth 30 0)
      (by decide) (by decide)).2 (by decide)).1⟩

@[simp]
theorem lock_acquire_trace (s : Kernel) :
    (lock_acquire s).trace = s.trace ++ [.lock_acquire] := rfl
@[simp]
theorem lock_release_trace (s : Kernel) :
    (lock_release s).trace = s.trace ++ [.lock_release] := rfl
@[simp]
theorem lock_acquire_running (s : Kernel) : (lock_acquire s).running = s.running := rfl
@[simp]
theorem lock_release_running (s : Kernel) : (lock_release s).running = s.running := rfl
@[simp]
theorem thread_current_lock_acquire (s : Kernel) :
    thread_current (lock_acquire s) = thread_current s := rfl
@[simp]
theorem thread_current_lock_release (s : Kernel) :
    thread_current (lock_release s) = thread_current s := rfl
@[simp]
theorem lock_acquire_lock (s : Kernel) : (lock_acquire s).filesys_lock = true := rfl
@[simp]
theorem lock_release_lock (s : Kernel) : (lock_release s).filesys_lock = false := rfl
@[simp]
theorem addNewFd_trace (fd : Int) (h : Nat) (s : Kernel) :
    (addNewFd fd h s).trace = s.trace := rfl
@[simp]
theorem addNewFd_running (fd : Int) (h : Nat) (s : Kernel) :
    (addNewFd fd h s).running = s.running := rfl
@[simp]
theorem addNewFd_lock (fd : Int) (h : Nat) (s : Kernel) :
    (addNewFd fd h s).filesys_lock = s.filesys_lock := rfl
@[simp]
theorem thread_current_addNewFd (fd : Int) (h : Nat) (s : Kernel) :
    thread_current (addNewFd fd h s)
      = { thread_current s with fds := (fd, h) :: (thread_current s).fds } := by
  simp [addNewFd]
@[simp]
theorem closeFile_trace (fd : Int) (s : Kernel) : (closeFile fd s).trace = s.trace := rfl
@[simp]
theorem closeFile_running (fd : Int) (s : Kernel) :
    (closeFile fd s).running = s.running := rfl
@[simp]
theorem closeFile_lock (fd : Int) (s : Kernel) :
    (closeFile fd s).filesys_lock = s.filesys_lock := rfl
@[simp]
theorem thread_current_closeFile (fd : Int) (s : Kernel) :
    thread_current (closeFile fd s)
      = { thread_current s with fds := (thread_current s).fds.filter (fun p => !(p.1 == fd)) } := by
  simp [closeFile]
@[simp]
theorem getFile_emit (fd : Int) (ev : Event) (s : Kernel) :
    getFile fd (emit ev s) = getFile fd s := rfl
@[simp]
theorem getFile_lock_acquire (fd : Int) (s : Kernel) :
    getFile fd (lock_acquire s) = getFile fd s := rfl
@[simp]
theorem getFile_lock_release (fd : Int) (s : Kernel) :
    getFile fd (lock_release s) = getFile fd s := rfl

/-- The path of `open` with a valid pointer when the filesystem has no file. -/
theorem open_failed (e : Env) (file : Nat) (s : Kernel)
    (hv : validate_pointer file = true)
    (hf : e.filesys_open (s.trace ++ [.lock_acquire]) file = none) :
    open_ e file s =
      (Ret.val (-1), lock_release (emit (.filesys_open file none) (lock_acquire s))) := by
  unfold open_
  rw [hv, ne_zero_of_valid file hv]
  simp [hf]

/-- The path of `open` with a valid pointer when the filesystem gives a file. -/
theorem open_succeeded (e : Env) (file : Nat) (s : Kernel) (h : Nat)
    (hv : validate_pointer file = true)
    (hf : e.filesys_open (s.trace ++ [.lock_acquire]) file = some h) :
    open_ e file s =
      (Ret.val (thread_current s).fileDescriptor,
        lock_release
          (setCurrent (fun t => { t with fileDescriptor := wrapInt (t.fileDescriptor + 1) })
            (addNewFd (thread_current s).fileDescriptor h
              (emit (.filesys_open file (some h)) (lock_acquire s))))) := by
  unfold open_
  rw [hv, ne_zero_of_valid file hv]
  simp [hf]

@[simp]
theorem closeAllOpenFiles_lock (s : Kernel) :
    (closeAllOpenFiles s).filesys_lock = s.filesys_lock := rfl

theorem exit_lock {α : Type} (status : Int) (s : Kernel) :
    (exit status s : Ret α × Kernel).2.filesys_lock = s.filesys_lock := by
  simp [exit]

/-- The console loop of `read` only adds `input_getc` calls to the trace and
leaves the lock and the thread records alone. -/
theorem read_console_trace (e : Env) (buffer : Nat) (n : Nat) :
    ∀ (i : Nat) (s : Kernel), ∃ L : List Event,
      (read_console e buffer n i s).trace = s.trace ++ L ∧
      (∀ ev ∈ L, ∃ c, ev = Event.input_getc c) ∧ L.length = n ∧
      (read_console e buffer n i s).filesys_lock = s.filesys_lock ∧
      (read_console e buffer n i s).running = s.running ∧
      (read_console e buffer n i s).all = s.all := by
  induction n with
  | zero =>
    intro i s
    exact ⟨[], by simp [read_console], by simp, rfl, rfl, rfl, rfl⟩
  | succ n ih =>
    intro i s
    obtain ⟨L, h1, h2, h3, h4, h5, h6⟩ :=
      ih (i + 1) (store8 (buffer + i) (e.input_getc s.trace) (emit (.input_getc (e.input_getc s.trace)) s))
    refine ⟨.input_getc (e.input_getc s.trace) :: L, ?_, ?_, ?_, ?_, ?_, ?_⟩
    · simp only [read_console]
      rw [h1]
      simp [store8]
    · intro ev hev
      simp only [List.mem_cons] at hev
      rcases hev with hev | hev
      · exact ⟨_, hev⟩
      · exact h2 ev hev
    · simp [h3]
    · simp only [read_console]
      rw [h4]
      rfl
    · simp only [read_console]
      rw [h5]
      rfl
    · simp only [read_console]
      rw [h6]
      rfl

/-- Console calls made with the lock held do not disturb the discipline. -/
theorem scan_getc (L R : List Event) (hL : ∀ ev ∈ L, ∃ c, ev = Event.input_getc c) :
    lockAcquires (L ++ R) = lockAcquires R ∧
    acquiresWhileFree true (L ++ R) = acquiresWhileFree true R ∧
    callsUnderLock true (L ++ R) = callsUnderLock true R ∧
    releasesWhileHeld true (L ++ R) = releasesWhileHeld true R ∧
    heldAfter true (L ++ R) = heldAfter true R := by
  induction L with
  | nil => simp
  | cons ev L ih =>
    obtain ⟨c, hc⟩ := hL ev (List.mem_cons_self _ _)
    obtain ⟨h1, h2, h3, h4, h5⟩ := ih (fun x hx => hL x (List.mem_cons_of_mem _ hx))
    subst hc
    simp only [List.cons_append, lockAcquires, acquiresWhileFree, callsUnderLock,
      releasesWhileHeld, heldAfter, lockAfter, Event.isFilesys, Event.isConsole]
    simp [h1, h2, h3, h4, h5]

theorem discipline_of_trace (s s' : Kernel) (L : List Event) (n : Nat)
    (ht : s'.trace = s.trace ++ L) (hl : s'.filesys_lock = false)
    (h : lockAcquires L = n ∧ acquiresWhileFree false L = true ∧
      callsUnderLock false L = true ∧ releasesWhileHeld false L = true ∧
      heldAfter false L = false) :
    LockDiscipline n s s' := by
  unfold LockDiscipline
  rw [newEvents_of_append s s' L ht]
  exact ⟨h.1, h.2.1, h.2.2.1, h.2.2.2.1, h.2.2.2.2, hl⟩

/-- Leaving through `exit` before the lock is taken. -/
theorem exit_discipline {α : Type} (status : Int) (s : Kernel) (hfree : s.filesys_lock = false) :
    LockDiscipline 0 s (exit status s : Ret α × Kernel).2 :=
  discipline_of_trace s _ _ 0 (exit_trace status s) (by rw [exit_lock]; exact hfree)
    ⟨rfl, rfl, rfl, rfl, rfl⟩

/-- Leaving through `exit` after the lock was taken and released. -/
theorem locked_exit_discipline {α : Type} (status : Int) (s : Kernel) :
    LockDiscipline 1 s (exit status (lock_release (lock_acquire s)) : Ret α × Kernel).2 :=
  discipline_of_trace s _
    [.lock_acquire, .lock_release, .closeAllOpenFiles (thread_current s).fds,
      .printf_exit (thread_current s).file_name status, .thread_exit] 1
    (by rw [exit_trace]; simp) (by rw [exit_lock]; rfl) ⟨rfl, rfl, rfl, rfl, rfl⟩

theorem create_discipline (e : Env) (file initial_size : Nat) (s : Kernel)
    (hfree : s.filesys_lock = false) :
    LockDiscipline (if validate_pointer file then 1 else 0) s (create e file initial_size s).2 := by
  unfold create
  cases hv : validate_pointer file
  · simp only [Bool.not_false, Bool.true_or, if_true, Bool.false_eq_true, if_false]
    exact exit_discipline (-1) s hfree
  · rw [ne_zero_of_valid file hv]
    simp only [Bool.not_true, Bool.or_self, Bool.false_eq_true, if_false, if_true]
    exact discipline_of_trace s _
      [.lock_acquire,
        .filesys_create file initial_size
          (e.filesys_create (s.trace ++ [.lock_acquire]) file initial_size),
        .lock_release] 1 (by simp) rfl ⟨rfl, rfl, rfl, rfl, rfl⟩

theorem remove_discipline (e : Env) (file : Nat) (s : Kernel)
    (hfree : s.filesys_lock = false) :
    LockDiscipline (if validate_pointer file then 1 else 0) s (remove e file s).2 := by
  unfold remove
  cases hv : validate_pointer file
  · simp only [Bool.not_false, Bool.true_or, if_true, Bool.false_eq_true, if_false]
    exact exit_discipline (-1) s hfree
  · rw [ne_zero_of_valid file hv]
    simp only [Bool.not_true, Bool.or_self, Bool.false_eq_true, if_false, if_true]
    exact discipline_of_trace s _
      [.lock_acquire, .filesys_remove file (e.filesys_remove (s.trace ++ [.lock_acquire]) file),
        .lock_release] 1 (by simp) rfl ⟨rfl, rfl, rfl, rfl, rfl⟩

theorem open_discipline (e : Env) (file : Nat) (s : Kernel)
    (hfree : s.filesys_lock = false) :
    LockDiscipline (if validate_pointer file then 1 else 0) s (open_ e file s).2 := by
  cases hv : validate_pointer file
  · have hx : open_ e file s = exit (-1) s := by
      unfold open_
      simp [hv]
    rw [hx]
    exact exit_discipline (-1) s hfree
  · simp only [if_true]
    cases hf : e.filesys_open (s.trace ++ [.lock_acquire]) file with
    | none =>
      rw [open_failed e file s hv hf]
      exact discipline_of_trace s _
        [.lock_acquire, .filesys_open file none, .lock_release] 1 (by simp) rfl
        ⟨rfl, rfl, rfl, rfl, rfl⟩
    | some h =>
      rw [open_succeeded e file s h hv hf]
      exact discipline_of_trace s _
        [.lock_acquire, .filesys_open file (some h), .lock_release] 1 (by simp) rfl
        ⟨rfl, rfl, rfl, rfl, rfl⟩

theorem filesize_discipline (e : Env) (fd : Int) (s : Kernel) (h0 : fd ≠ 0) (h1 : fd ≠ 1) :
    LockDiscipline 1 s (filesize e fd s).2 := by
  unfold filesize
  simp only [h0, h1, or_self, if_false]
  exact discipline_of_trace s _
    [.lock_acquire,
      .file_length (getFile fd s) (e.file_length (s.trace ++ [.lock_acquire]) (getFile fd s)),
      .lock_release] 1 (by simp) rfl ⟨rfl, rfl, rfl, rfl, rfl⟩

theorem read_discipline (e : Env) (fd : Int) (buffer size : Nat) (s : Kernel) :
    LockDiscipline 1 s (read e fd buffer size s).2 := by
  unfold read
  by_cases hb : (!validate_pointer buffer || buffer == 0) = true
  · simp only [hb, if_true]
    exact locked_exit_discipline (-1) s
  · simp only [hb, if_false, Bool.false_eq_true]
    by_cases h0 : fd = 0
    · simp only [h0, if_true]
      obtain ⟨L, hL, hg, _, hlock, _, _⟩ := read_console_trace e buffer size 0 (lock_acquire s)
      obtain ⟨g1, g2, g3, g4, g5⟩ := scan_getc L [.lock_release] hg
      refine discipline_of_trace s _ (.lock_acquire :: (L ++ [.lock_release])) 1 ?_ rfl ?_
      · simp [hL]
      · simp only [lockAcquires, acquiresWhileFree, callsUnderLock, releasesWhileHeld, heldAfter,
          lockAfter, g1, g2, g3, g4, g5]
        simp [Event.isFilesys, Event.isConsole]
    · simp only [h0, if_false]
      by_cases h1 : fd = 1
      · simp only [h1, if_true]
        exact locked_exit_discipline (-1) s
      · simp only [h1, if_false]
        cases hg : getFile fd (lock_acquire s) with
        | none =>
          exact discipline_of_trace s _ [.lock_acquire, .lock_release] 1 (by simp) rfl
            ⟨rfl, rfl, rfl, rfl, rfl⟩
        | some sp =>
          exact discipline_of_trace s _
            [.lock_acquire,
              .file_read (some sp) buffer size
                (e.file_read (s.trace ++ [.lock_acquire]) (some sp) buffer size),
              .lock_release] 1 (by simp) rfl ⟨rfl, rfl, rfl, rfl, rfl⟩

theorem write_discipline (e : Env) (fd : Int) (buffer size : Nat) (s : Kernel)
    (hslip : (decide (fd = 0) && validate_pointer buffer) = false) :
    LockDiscipline 1 s (write e fd buffer size s).2 := by
  unfold write
  by_cases hb : (!validate_pointer buffer || buffer == 0) = true
  · simp only [hb, if_true]
    exact locked_exit_discipline (-1) s
  · simp only [hb, if_false, Bool.false_eq_true]
    have hv : validate_pointer buffer = true := by
      cases hv : validate_pointer buffer
      · simp [hv] at hb
      · rfl
    have h0 : fd ≠ 0 := by
      intro h0
      simp [h0, hv] at hslip
    by_cases h1 : fd = 1
    · simp only [h1, if_true]
      exact discipline_of_trace s _ [.lock_acquire, .putbuf buffer size, .lock_release] 1
        (by simp) rfl ⟨rfl, rfl, rfl, rfl, rfl⟩
    · simp only [h1, h0, if_false]
      exact discipline_of_trace s _
        [.lock_acquire,
          .file_write (getFile fd s) buffer size
            (e.file_write (s.trace ++ [.lock_acquire]) (getFile fd s) buffer size),
          .lock_release] 1 (by simp) rfl ⟨rfl, rfl, rfl, rfl, rfl⟩

theorem seek_discipline (fd : Int) (position : Nat) (s : Kernel) :
    LockDiscipline 1 s (seek fd position s).2 := by
  unfold seek
  exact discipline_of_trace s _
    [.lock_acquire, .file_seek (getFile fd s) position, .lock_release] 1 (by simp) rfl
    ⟨rfl, rfl, rfl, rfl, rfl⟩

theorem tell_discipline (e : Env) (fd : Int) (s : Kernel) :
    LockDiscipline 1 s (tell e fd s).2 := by
  unfold tell
  by_cases h : fd = 0 ∨ fd = 1
  · simp only [h, if_true]
    exact discipline_of_trace s _ [.lock_acquire, .lock_release] 1 (by simp) rfl
      ⟨rfl, rfl, rfl, rfl, rfl⟩
  · simp only [h, if_false]
    exact discipline_of_trace s _
      [.lock_acquire,
        .file_tell (getFile fd s) (e.file_tell (s.trace ++ [.lock_acquire]) (getFile fd s)),
        .lock_release] 1 (by simp) rfl ⟨rfl, rfl, rfl, rfl, rfl⟩

theorem close_discipline (fd : Int) (s : Kernel) :
    LockDiscipline 1 s (close fd s).2 := by
  unfold close
  exact discipline_of_trace s _
    [.lock_acquire, .file_close (getFile fd s), .lock_release] 1 (by simp) rfl
    ⟨rfl, rfl, rfl, rfl, rfl⟩

/-- C4, as stated, fails: `create` with a null path pointer ends in
`exit (-1)` before the lock is taken, so the lock is acquired zero times, not
once. -/
theorem lock_acquired_once_counterexample :
    (kernelAtDepth 0 0).filesys_lock = false ∧
    (create (fixedEnv 7 true none) 0 0 (kernelAtDepth 0 0)).1 = Ret.noreturn ∧
    lockAcquires (newEvents (kernelAtDepth 0 0)
      (FileOp.run (fixedEnv 7 true none) (.create 0 0) (kernelAtDepth 0 0))) = 0 := by
  refine ⟨by decide, by decide, by decide⟩

/-- C4, amended: starting with the lock free, each of `create`, `remove`,
`open`, `filesize`, `read`, `write`, `seek`, `tell` and `close`, on every
argument other than `filesize` on descriptor 0 or 1 and `write` on descriptor
0 with a valid buffer, takes the lock exactly once (and not at all when
`create`, `remove` or `open` reject the path pointer, which they do before
taking it), never takes it while held, makes every filesystem or console call
with the lock held, never releases it while not held, and leaves it free on
every exit path, normal return and `exit (-1)` alike. -/
theorem lock_discipline (e : Env) (op : FileOp) (s : Kernel)
    (hfree : s.filesys_lock = false) (hslip : op.fallsThrough = false) :
    lockAcquires (newEvents s (op.run e s)) = (if op.rejectedBeforeLock then 0 else 1) ∧
    acquiresWhileFree false (newEvents s (op.run e s)) = true ∧
    callsUnderLock false (newEvents s (op.run e s)) = true ∧
    releasesWhileHeld false (newEvents s (op.run e s)) = true ∧
    heldAfter false (newEvents s (op.run e s)) = false ∧
    (op.run e s).filesys_lock = false := by
  cases op with
  | create file initial_size =>
    have := create_discipline e file initial_size s hfree
    cases hv : validate_pointer file <;>
      simpa [LockDiscipline, FileOp.run, FileOp.rejectedBeforeLock, hv] using this
  | remove file =>
    have := remove_discipline e file s hfree
    cases hv : validate_pointer file <;>
      simpa [LockDiscipline, FileOp.run, FileOp.rejectedBeforeLock, hv] using this
  | open_ file =>
    have := open_discipline e file s hfree
    cases hv : validate_pointer file <;>
      simpa [LockDiscipline, FileOp.run, FileOp.rejectedBeforeLock, hv] using this
  | filesize fd =>
    simp only [FileOp.fallsThrough, decide_eq_false_iff_not, not_or] at hslip
    simpa [LockDiscipline, FileOp.run, FileOp.rejectedBeforeLock] using
      filesize_discipline e fd s hslip.1 hslip.2
  | read fd buffer size =>
    simpa [LockDiscipline, FileOp.run, FileOp.rejectedBeforeLock] using
      read_discipline e fd buffer size s
  | write fd buffer size =>
    simpa [LockDiscipline, FileOp.run, FileOp.rejectedBeforeLock] using
      write_discipline e fd buffer size s hslip
  | seek fd position =>
    simpa [LockDiscipline, FileOp.run, FileOp.rejectedBeforeLock] using
      seek_discipline fd position s
  | tell fd =>
    simpa [LockDiscipline, FileOp.run, FileOp.rejectedBeforeLock] using tell_discipline e fd s
  | close fd =>
    simpa [LockDiscipline, FileOp.run, FileOp.rejectedBeforeLock] using close_discipline fd s

/-- Witness for C4: `read` of four characters from the console
(descriptor 0). -/
theorem lock_discipline_witness :
    newEvents (kernelAtDepth 0 0)
      (FileOp.run (fixedEnv 7 true none) (.read 0 0x08048000 4) (kernelAtDepth 0 0)) =
      [.lock_acquire, .input_getc 65, .input_getc 65, .input_getc 65, .input_getc 65,
        .lock_release] ∧
    lockAcquires (newEvents (kernelAtDepth 0 0)
      (FileOp.run (fixedEnv 7 true none) (.read 0 0x08048000 4) (kernelAtDepth 0 0))) = 1 ∧
    callsUnderLock false (newEvents (kernelAtDepth 0 0)
      (FileOp.run (fixedEnv 7 true none) (.read 0 0x08048000 4) (kernelAtDepth 0 0))) = true :=
  ⟨by decide,
    (lock_discipline (fixedEnv 7 true none) (.read 0 0x08048000 4) (kernelAtDepth 0 0)
      (by decide) (by decide)).1,
    (lock_discipline (fixedEnv 7 true none) (.read 0 0x08048000 4) (kernelAtDepth 0 0)
      (by decide) (by decide)).2.2.1⟩

/-- The calls that fall through: `filesize` on descriptor 0 or 1
releases the lock, calls `file_length` without it and releases it a second
time. -/
theorem filesize_reserved_trace (e : Env) (fd : Int) (s : Kernel) (h : fd = 0 ∨ fd = 1) :
    newEvents s (filesize e fd s).2 =
      [.lock_acquire, .lock_release,
        .file_length (getFile fd s)
          (e.file_length (s.trace ++ [.lock_acquire, .lock_release]) (getFile fd s)),
        .lock_release] ∧
    callsUnderLock false (newEvents s (filesize e fd s).2) = false ∧
    releasesWhileHeld false (newEvents s (filesize e fd s).2) = false := by
  have ht : newEvents s (filesize e fd s).2 =
      [.lock_acquire, .lock_release,
        .file_length (getFile fd s)
          (e.file_length (s.trace ++ [.lock_acquire, .lock_release]) (getFile fd s)),
        .lock_release] := by
    apply newEvents_of_append
    unfold filesize
    have h' : fd = 1 ∨ fd = 0 := h.symm
    simp [h']
  rw [ht]
  exact ⟨rfl, rfl, rfl⟩

/-! ## Reserved and unknown descriptors -/

theorem valid_user_address : validate_pointer 0x08048000 = true := by decide

/-- C3, on the code: `read` on descriptor 1 with a valid buffer ends in
`exit (-1)` without a `file_read` call, but `write` on descriptor 0 with a
valid buffer does not: it releases the lock, calls `file_write` with the
handle that `getFile 0` gives (none for a fresh process), releases the lock a
second time and returns to the caller the value of `file_write`. -/
theorem write_fd0_falls_through (e : Env) (size : Nat) :
    (read e 1 0x08048000 size (kernelAtDepth 0 0)).1 = Ret.noreturn ∧
    (thread_current (read e 1 0x08048000 size (kernelAtDepth 0 0)).2).st = -1 ∧
    newEvents (kernelAtDepth 0 0) (read e 1 0x08048000 size (kernelAtDepth 0 0)).2 =
      [.lock_acquire, .lock_release, .closeAllOpenFiles [], .printf_exit 7 (-1), .thread_exit] ∧
    (write e 0 0x08048000 size (kernelAtDepth 0 0)).1 =
      Ret.val (e.file_write [.lock_acquire, .lock_release] none 0x08048000 size) ∧
    (thread_current (write e 0 0x08048000 size (kernelAtDepth 0 0)).2).st = 0 ∧
    newEvents (kernelAtDepth 0 0) (write e 0 0x08048000 size (kernelAtDepth 0 0)).2 =
      [.lock_acquire, .lock_release,
        .file_write none 0x08048000 size
          (e.file_write [.lock_acquire, .lock_release] none 0x08048000 size),
        .lock_release] := by
  have hv := valid_user_address
  have hz := ne_zero_of_valid _ hv
  refine ⟨?_, ?_, ?_, ?_, ?_, ?_⟩
  · unfold read
    rw [hv, hz]
    rfl
  · unfold read
    rw [hv, hz]
    rfl
  · unfold read
    rw [hv, hz]
    rfl
  · unfold write
    rw [hv, hz]
    rfl
  · unfold write
    rw [hv, hz]
    rfl
  · unfold write
    rw [hv, hz]
    rfl

/-- C9, on the code: for a process with no entry for descriptor 2 (here the
process has opened a file as descriptor 2 and closed it), `read` returns -1
without a filesystem call, but `tell`, `filesize` and `write` pass the missing
handle to `file_tell`, `file_length` and `file_write` and return what these
give. -/
theorem unknown_fd_reaches_filesystem (e : Env) (size : Nat) :
    getFile 2 closedFdKernel = none ∧
    (read e 2 0x08048000 size closedFdKernel).1 = Ret.val (-1) ∧
    (newEvents closedFdKernel (read e 2 0x08048000 size closedFdKernel).2).filter
      Event.isFilesys = [] ∧
    (tell e 2 closedFdKernel).1
      = Ret.val (toWord (e.file_tell (closedFdKernel.trace ++ [.lock_acquire]) none)) ∧
    newEvents closedFdKernel (tell e 2 closedFdKernel).2 =
      [.lock_acquire,
        .file_tell none (e.file_tell (closedFdKernel.trace ++ [.lock_acquire]) none),
        .lock_release] ∧
    (filesize e 2 closedFdKernel).1
      = Ret.val (e.file_length (closedFdKernel.trace ++ [.lock_acquire]) none) ∧
    newEvents closedFdKernel (filesize e 2 closedFdKernel).2 =
      [.lock_acquire,
        .file_length none (e.file_length (closedFdKernel.trace ++ [.lock_acquire]) none),
        .lock_release] ∧
    (write e 2 0x08048000 size closedFdKernel).1 =
      Ret.val (e.file_write (closedFdKernel.trace ++ [.lock_acquire]) none 0x08048000 size) ∧
    newEvents closedFdKernel (write e 2 0x08048000 size closedFdKernel).2 =
      [.lock_acquire,
        .file_write none 0x08048000 size
          (e.file_write (closedFdKernel.trace ++ [.lock_acquire]) none 0x08048000 size),
        .lock_release] := by
  have hv := valid_user_address
  have hz := ne_zero_of_valid _ hv
  have hg : getFile 2 closedFdKernel = none := by decide
  refine ⟨hg, ?_, ?_, ?_, ?_, ?_, ?_, ?_, ?_⟩
  · unfold read
    rw [hv, hz]
    simp [hg]
  · rw [newEvents_of_append closedFdKernel _ [.lock_acquire, .lock_release]]
    · rfl
    · unfold read
      rw [hv, hz]
      simp [hg]
  · unfold tell
    simp [hg]
  · apply newEvents_of_append
    unfold tell
    simp [hg]
  · unfold filesize
    simp [hg]
  · apply newEvents_of_append
    unfold filesize
    simp [hg]
  · unfold write
    rw [hv, hz]
    simp [hg]
  · apply newEvents_of_append
    unfold write
    rw [hv, hz]
    simp [hg]

/-! ## Dispatcher -/

theorem exit_ends {α : Type} (f : intr_frame) (s s1 : Kernel)
    (h : s1 = s ∨ s1 = lock_release (lock_acquire s)) :
    EndsInExitMinusOne f s (Ret.noreturn, f, (exit (-1) s1 : Ret α × Kernel).2) := by
  unfold EndsInExitMinusOne
  rcases h with h | h
  · subst h
    rw [newEvents_of_append _ _ _ (exit_trace (-1) s1)]
    exact ⟨rfl, rfl,
      (exit_status (-1) s1 : (thread_current (exit (-1) s1 : Ret α × Kernel).2).st = -1),
      rfl, rfl⟩
  · subst h
    rw [newEvents_of_append s _
      [.lock_acquire, .lock_release, .closeAllOpenFiles (thread_current s).fds,
        .printf_exit (thread_current s).file_name (-1), .thread_exit]
      (by rw [exit_trace]; simp)]
    exact ⟨rfl, rfl, (exit_status (-1) (lock_release (lock_acquire s)) :
      (thread_current (exit (-1) (lock_release (lock_acquire s)) : Ret α × Kernel).2).st = -1),
      rfl, rfl⟩

theorem noEax_exit_ends (f : intr_frame) (s : Kernel) :
    EndsInExitMinusOne f s (noEax f (exit (-1) s : Ret Unit × Kernel)) :=
  exit_ends f s s (Or.inl rfl)

theorem setEax_exit_ends {α : Type} (f : intr_frame) (conv : α → Nat) (s s1 : Kernel)
    (h : s1 = s ∨ s1 = lock_release (lock_acquire s)) :
    EndsInExitMinusOne f s (setEax f conv (exit (-1) s1 : Ret α × Kernel)) :=
  exit_ends f s s1 h

theorem exec_invalid (e : Env) (p : Nat) (s : Kernel) (h : validate_pointer p = false) :
    exec e p s = exit (-1) s := by
  unfold exec
  simp [h]

theorem create_invalid (e : Env) (p n : Nat) (s : Kernel) (h : validate_pointer p = false) :
    create e p n s = exit (-1) s := by
  unfold create
  simp [h]

theorem remove_invalid (e : Env) (p : Nat) (s : Kernel) (h : validate_pointer p = false) :
    remove e p s = exit (-1) s := by
  unfold remove
  simp [h]

theorem open_invalid (e : Env) (p : Nat) (s : Kernel) (h : validate_pointer p = false) :
    open_ e p s = exit (-1) s := by
  unfold open_
  simp [h]

theorem read_invalid (e : Env) (fd : Int) (p n : Nat) (s : Kernel)
    (h : validate_pointer p = false) :
    read e fd p n s = exit (-1) (lock_release (lock_acquire s)) := by
  unfold read
  simp [h]

theorem write_invalid (e : Env) (fd : Int) (p n : Nat) (s : Kernel)
    (h : validate_pointer p = false) :
    write e fd p n s = exit (-1) (lock_release (lock_acquire s)) := by
  unfold write
  simp [h]

theorem arity_le (op n : Nat) (h : arity op = some n) : op ≤ 12 := by
  unfold arity SYS_HALT SYS_EXIT SYS_EXEC SYS_WAIT SYS_REMOVE SYS_OPEN SYS_FILESIZE SYS_TELL
    SYS_CLOSE SYS_CREATE SYS_SEEK SYS_READ SYS_WRITE at h
  split_ifs at h <;> omega

/-- C2: for every trapped frame, when the validator rejects the stack
pointer, or the opcode is one of the thirteen recognised ones and the
validator rejects the address of an argument word the opcode requires or the
user pointer passed to `exec`, `create`, `remove`, `open`, `read` or `write`,
`syscall_handler` ends in `exit (-1)`: it does not return, the status recorded
is -1, exactly one termination line is printed, no filesystem, console or
spawn call has been made, and the frame, return slot included, is as it was. -/
theorem syscall_handler_rejects (e : Env) (f : intr_frame) (s : Kernel)
    (h : validationFails f s = true) :
    (syscall_handler e f s).1 = Ret.noreturn ∧
    (syscall_handler e f s).2.1 = f ∧
    (thread_current (syscall_handler e f s).2.2).st = -1 ∧
    (newEvents s (syscall_handler e f s).2.2).filter Event.isExitLine
      = [.printf_exit (thread_current s).file_name (-1)] ∧
    (newEvents s (syscall_handler e f s).2.2).filter Event.isCollaborator = [] := by
  show EndsInExitMinusOne f s (syscall_handler e f s)
  have r1 : List.range 1 = [0] := rfl
  have r2 : List.range 2 = [0, 1] := rfl
  have r3 : List.range 3 = [0, 1, 2] := rfl
  by_cases hsp : validate_pointer (argAddr f 0) = true
  · unfold validationFails at h
    simp only [hsp, Bool.not_true, Bool.false_or] at h
    cases ha : arity (arg f s 0) with
    | none => simp [ha] at h
    | some n =>
      have hle := arity_le _ _ ha
      clear ha
      obtain ⟨op, hop⟩ : ∃ op, arg f s 0 = op := ⟨_, rfl⟩
      rw [hop] at hle
      unfold syscall_handler
      interval_cases op <;>
      simp only [hsp, ne_zero_of_valid _ hsp, hop, arity, userPointerArg, SYS_HALT, SYS_EXIT,
        SYS_EXEC, SYS_WAIT, SYS_REMOVE, SYS_OPEN, SYS_FILESIZE, SYS_TELL, SYS_CLOSE, SYS_CREATE,
        SYS_SEEK, SYS_READ, SYS_WRITE] at h ⊢ <;>
      simp [r1, r2, r3] at h ⊢ <;>
      (split
       · exact noEax_exit_ends f s
       · rename_i hc
         clear r1 r2 r3 hle hop hsp
         first
         | (exfalso; tauto)
         | (by_cases hu : validate_pointer (arg f s 1) = false
            · first
              | (rw [exec_invalid e _ s hu]; exact setEax_exit_ends f _ s s (Or.inl rfl))
              | (rw [create_invalid e _ _ s hu]; exact setEax_exit_ends f _ s s (Or.inl rfl))
              | (rw [remove_invalid e _ s hu]; exact setEax_exit_ends f _ s s (Or.inl rfl))
              | (rw [open_invalid e _ s hu]; exact setEax_exit_ends f _ s s (Or.inl rfl))
            · exfalso; tauto)
         | (by_cases hu : validate_pointer (arg f s 2) = false
            · first
              | (rw [read_invalid e _ _ _ s hu]; exact setEax_exit_ends f _ s _ (Or.inr rfl))
              | (rw [write_invalid e _ _ _ s hu]; exact setEax_exit_ends f _ s _ (Or.inr rfl))
            · exfalso; tauto))
  · have hsp' : validate_pointer (argAddr f 0) = false := by simpa using hsp
    unfold syscall_handler
    simp only [hsp', Bool.not_false, Bool.true_or, if_true]
    exact noEax_exit_ends f s

/-- Witness for C2: a `write` call to descriptor 1 whose
buffer is `PHYS_BASE`; nothing reaches the console. -/
theorem syscall_handler_rejects_witness :
    arg writeCallFrame writeCallKernel 0 = SYS_WRITE ∧
    arg writeCallFrame writeCallKernel 2 = PHYS_BASE ∧
    validationFails writeCallFrame writeCallKernel = true ∧
    (syscall_handler (fixedEnv 7 true none) writeCallFrame writeCallKernel).1 = Ret.noreturn ∧
    (syscall_handler (fixedEnv 7 true none) writeCallFrame writeCallKernel).2.1
      = writeCallFrame ∧
    (newEvents writeCallKernel
      (syscall_handler (fixedEnv 7 true none) writeCallFrame writeCallKernel).2.2).filter
        Event.isCollaborator = [] :=
  ⟨by decide, by decide, by decide,
    (syscall_handler_rejects (fixedEnv 7 true none) writeCallFrame writeCallKernel
      (by decide)).1,
    (syscall_handler_rejects (fixedEnv 7 true none) writeCallFrame writeCallKernel
      (by decide)).2.1,
    (syscall_handler_rejects (fixedEnv 7 true none) writeCallFrame writeCallKernel
      (by decide)).2.2.2.2⟩

end Pintos
